import Mathlib

/-!
Verification development for the 96boards low-speed-connector bus driver
(`96boards-ls-bus.c`, the connector driver, and the secure96 mezzanine
driver `96boards-secure96.c`).

The C sources are shallowly embedded: every stateful kernel object the
claims touch (the `ls_device_ida` id pool, the set of live devices on the
bus, the registered drivers, the `ls_bus_type.dev_root` global, the
`secure96_eeprom_pdata.wp_gpiod` module global) is explicit state, and
every externally-provided resource acquisition (phandle parsing, adapter
lookup, `i2c_new_device`, gpio lookup, ...) is driven by a boolean
environment telling which acquisitions succeed.  Resource operations are
recorded in event traces so that acquisition/release ordering can be
stated exactly.
-/

/-- Errno `-ENODEV`, returned by the drivers when a device or link is missing. -/
def errENODEV : Int := -19

/-- Errno `-EPROBE_DEFER`, returned when a declared provider is not yet available. -/
def errEPROBE_DEFER : Int := -517

/-- Errno `-ENOMEM`, returned on allocation failure (also used to model a failing
`bus_create_file`). -/
def errENOMEM : Int := -12

/-! ## The id allocator (`ida_simple_get` / `ida_simple_remove`)

`ida_simple_get(&ls_device_ida, 0, 0, ...)` hands out the smallest
non-negative integer not currently allocated; `ida_simple_remove` frees one.
The pool is modelled as the list of currently-allocated ids. -/

/-- Scan upward from `n` for at most `fuel` steps looking for a value not in
`s`; returns `n + fuel` if the fuel runs out. -/
def leastFrom (s : List Nat) : Nat → Nat → Nat
  | 0, n => n
  | fuel + 1, n => if n ∈ s then leastFrom s fuel (n + 1) else n

/-- The id `ida_simple_get` returns on pool `s`: the least natural number not
in `s` (the scan bound `s.length + 1` always suffices for a duplicate-free
pool). -/
def idaAlloc (s : List Nat) : Nat := leastFrom s (s.length + 1) 0

/-! ## Bus data model

`96boards-mezzanines.h` / `96boards-ls-bus.c`: drivers carry a name and an
OF compatible string; devices carry an id, the externally visible device
name, and the topology node's compatible string when created from the
device tree (`of_node`), `none` for injected devices. -/

/-- A registered `ls_driver`: `drv.name` and its `of_match_table` compatible
entry. -/
structure LsDriver where
  name : String
  compat : Option String
deriving DecidableEq

/-- A live `ls_device` on the bus. `ofCompat` is the compatible string of the
attached `of_node` (`none` when the device was injected without a node).
`bound` records the driver the device-model bound it to at `device_add`
time, via the bus `match` policy. -/
structure LsDevice where
  id : Nat
  devName : String
  ofCompat : Option String
  bound : Option String
deriving DecidableEq

/-- Model of `ls_match` from `96boards-ls-bus.c`: first match on OF node
(`of_driver_match_device`), second match on name (`strcmp(dev_name(dev),
drv->name)`). -/
def ls_match (dname : String) (ofCompat : Option String) (drv : LsDriver) : Bool :=
  (match ofCompat, drv.compat with
   | some c, some c2 => c == c2
   | _, _ => false)
  || dname == drv.name

/-- The driver (by name) the device model binds a freshly added device to:
the first registered driver for which the bus `match` succeeds. -/
def matchDriver (drvs : List LsDriver) (dname : String) (ofCompat : Option String) :
    Option String :=
  (drvs.find? (fun drv => ls_match dname ofCompat drv)).map (fun drv => drv.name)

/-- The bus-global state: live devices on `ls_bus_type`, the contents of the
`ls_device_ida` pool, the registered drivers (in registration order), and
the `ls_bus_type.dev_root` global (`some ()` while a connector is attached
and its drvdata set, `none` otherwise). -/
structure BusState where
  devices : List LsDevice
  ida : List Nat
  drivers : List LsDriver
  devRoot : Option Unit
deriving DecidableEq

/-- The state before any connector is attached. -/
def busStart : BusState := ⟨[], [], [], none⟩

/-- Model of `lscon_add_device`: allocate an id from `ls_device_ida`, set the device
name (`name` if supplied, else `mezzanine<id>`), then `device_add`.
`kOk` models the `kzalloc` outcome and `addOk` the `device_add` outcome.
On `device_add` failure the function returns the error *without* giving the
id back to the pool. -/
def lscon_add_device (s : BusState) (name : Option String)
    (npCompat : Option String) (kOk addOk : Bool) : Int × BusState :=
  if kOk = false then (errENOMEM, s)
  else
    let id := idaAlloc s.ida
    let dname := match name with
      | some n => n
      | none => "mezzanine" ++ toString id
    let d : LsDevice :=
      { id := id, devName := dname, ofCompat := npCompat,
        bound := matchDriver s.drivers dname npCompat }
    if addOk then
      (0, { s with ida := s.ida ++ [id], devices := s.devices ++ [d] })
    else
      (errENODEV, { s with ida := s.ida ++ [id] })

/-- Model of `lscon_del_device`: `device_del` (removes the device from the bus) then
`ida_simple_remove` of its id. -/
def lscon_del_device (s : BusState) (d : LsDevice) : BusState :=
  { s with devices := s.devices.erase d, ida := s.ida.erase d.id }

/-- One lifecycle operation on the connector: a create (with its allocation
outcomes) or a destroy of the `i`-th live device. -/
inductive BusOp where
  | create (name : Option String) (npCompat : Option String) (kOk addOk : Bool)
  | destroyAt (i : Nat)

/-- Apply one lifecycle operation. -/
def busStep (s : BusState) : BusOp → BusState
  | .create name np kOk addOk => (lscon_add_device s name np kOk addOk).2
  | .destroyAt i =>
    match s.devices[i]? with
    | some d => lscon_del_device s d
    | none => s

/-- Run a sequence of lifecycle operations. -/
def runOps (s : BusState) (ops : List BusOp) : BusState :=
  ops.foldl busStep s

/-- The id-pool consistency invariant: live devices have pairwise-distinct
ids, the pool holds no duplicates, and every live id is in the pool. -/
def busInv (s : BusState) : Prop :=
  (s.devices.map (fun d => d.id)).Nodup ∧ s.ida.Nodup ∧
    ∀ d ∈ s.devices, d.id ∈ s.ida

instance (s : BusState) : Decidable (busInv s) := by
  unfold busInv; infer_instance

/-- A concrete run for the reuse scenario: two creates, then destroying the
first device frees id 0 and the next allocation returns exactly 0. -/
def c3Ops : List BusOp :=
  [.create none none true true, .create none none true true]

def c3Dev : LsDevice := ⟨0, "mezzanine0", none, none⟩

/-! ## The inject / eject control operations

`ls_inject_store` / `ls_eject_store` both begin with
`struct device *dev = ls_bus_type.dev_root; ... dev_get_drvdata(dev)`;
`dev_get_drvdata` reads `dev->driver_data`, so when no connector is
attached (`dev_root == NULL`, as after `lscon_remove`) this dereferences a
null pointer.  The fault is modelled as `Except.error ()`. -/

/-- The kernel's `isspace`: space, `\t`, `\n`, `\v`, `\f`, `\r`. -/
def isspace (c : Char) : Bool :=
  c = ' ' || c = '\t' || c = '\n' || c = Char.ofNat 11 || c = Char.ofNat 12 ||
    c = '\r'

/-- Model of `strstrip`: remove trailing whitespace, skip leading whitespace. -/
def strstrip (s : String) : String :=
  ⟨((s.data.dropWhile isspace).reverse.dropWhile isspace).reverse⟩

/-- Model of `ls_inject_store`: read `dev_root`/drvdata, `strstrip` the written name,
scan registered drivers for an exact name match (`ls_inject_match`); no
match is a silent no-op returning `count`; on a match, `lscon_add_device`
with the stripped name and no topology node, returning `count` regardless
of the creation outcome. -/
def ls_inject_store (s : BusState) (buf : String) (count : Nat)
    (kOk addOk : Bool) : Except Unit (Nat × BusState) :=
  match s.devRoot with
  | none => .error ()
  | some _ =>
    let devname := strstrip buf
    if s.drivers.any (fun drv => devname == drv.name) then
      .ok (count, (lscon_add_device s (some devname) none kOk addOk).2)
    else
      .ok (count, s)

/-- Model of `ls_eject_store`: read `dev_root`/drvdata, `strstrip` the name, look the
device up by name (`bus_find_device_by_name`); not found is a silent no-op
returning `count`; else `lscon_del_device`. -/
def ls_eject_store (s : BusState) (buf : String) (count : Nat) :
    Except Unit (Nat × BusState) :=
  match s.devRoot with
  | none => .error ()
  | some _ =>
    let devname := strstrip buf
    match s.devices.find? (fun d => d.devName == devname) with
    | none => .ok (count, s)
    | some d => .ok (count, lscon_del_device s d)

/-- A bus with one attached connector, the secure96 driver registered, and
one topology-created device. -/
def c5State : BusState :=
  { devices := [⟨0, "mezzanine0", some "96boards,secure96", some "secure96"⟩],
    ida := [0],
    drivers := [⟨"secure96", some "96boards,secure96"⟩],
    devRoot := some () }

/-- The same bus as `c5State` after the connector was detached. -/
def c9State : BusState :=
  { devices := [⟨0, "mezzanine0", some "96boards,secure96", some "secure96"⟩],
    ida := [0],
    drivers := [⟨"secure96", some "96boards,secure96"⟩],
    devRoot := none }

/-! ## Connector attach (`lscon_probe`) and detach (`lscon_remove`)

The probe resolves the upstream resources in the order i2c0, i2c1, spi.
Each i2c link is resolved in two stages (`of_parse_phandle`, then
`of_get_i2c_adapter_by_node`), the spi link in three
(`of_parse_phandle`, `of_find_spi_controller_by_node`,
`spi_controller_get`).  A missing phandle is `-ENODEV`; a declared link
whose provider lookup fails is `-EPROBE_DEFER`.  Resource operations are
recorded as events. -/

/-- Events emitted by `lscon_probe`: provider queries, acquisitions and
releases of the three upstream resources, setting `dev_root`
(+ drvdata), `bus_create_file` (0 = supported, 1 = inject, 2 = eject),
and one event per attempted child creation carrying `lscon_add_device`'s
(ignored) return value. -/
inductive PEv where
  | queryI2c0 | queryI2c1 | querySpi
  | acqI2c0 | acqI2c1 | acqSpi
  | relI2c0 | relI2c1 | relSpi
  | setRoot
  | mkFile (i : Nat)
  | child (ret : Int)
deriving DecidableEq

/-- One available child node of the connector's topology node, with the
outcomes of the allocations its `lscon_add_device` call will perform. -/
structure ChildSpec where
  compat : Option String
  kOk : Bool
  addOk : Bool

/-- The environment `lscon_probe` runs against: which resolution stages and
file creations succeed, and the connector's available child nodes. -/
structure ProbeEnv where
  i2c0Phandle : Bool
  i2c0Adapter : Bool
  i2c1Phandle : Bool
  i2c1Adapter : Bool
  spiPhandle : Bool
  spiFind : Bool
  spiGet : Bool
  fileSupported : Bool
  fileInject : Bool
  fileEject : Bool
  children : List ChildSpec

/-- Model of the `for_each_available_child_of_node` loop at the end of
`lscon_probe`: call `lscon_add_device(ls, NULL, child)` for every child,
ignoring the returned value (it is recorded only as a trace event). -/
def addChildren (s : BusState) (cs : List ChildSpec) (tr : List PEv) :
    BusState × List PEv :=
  match cs with
  | [] => (s, tr)
  | c :: rest =>
    let r := lscon_add_device s none c.compat c.kOk c.addOk
    addChildren r.2 rest (tr ++ [PEv.child r.1])

/-- Model of `lscon_probe`: resolve i2c0, i2c1, spi (with the goto-based
rollback of the source: `out_put_i2c0` releases i2c0, `out_put_i2c1`
releases i2c1 then i2c0), set `dev_root` and drvdata, create the three bus
attribute files (failures jump to `out_put_i2c1`), then add one device per
available child node.  Returns the error code, the resulting bus state and
the event trace. -/
def lscon_probe (env : ProbeEnv) (s0 : BusState) : Int × BusState × List PEv :=
  if env.i2c0Phandle = false then
    (errENODEV, s0, [])
  else if env.i2c0Adapter = false then
    (errEPROBE_DEFER, s0, [.queryI2c0])
  else if env.i2c1Phandle = false then
    (errENODEV, s0, [.queryI2c0, .acqI2c0, .relI2c0])
  else if env.i2c1Adapter = false then
    (errEPROBE_DEFER, s0, [.queryI2c0, .acqI2c0, .queryI2c1, .relI2c0])
  else if env.spiPhandle = false then
    (errENODEV, s0,
      [.queryI2c0, .acqI2c0, .queryI2c1, .acqI2c1, .relI2c1, .relI2c0])
  else if env.spiFind = false then
    (errEPROBE_DEFER, s0,
      [.queryI2c0, .acqI2c0, .queryI2c1, .acqI2c1, .querySpi, .relI2c1, .relI2c0])
  else if env.spiGet = false then
    (errENODEV, s0,
      [.queryI2c0, .acqI2c0, .queryI2c1, .acqI2c1, .querySpi, .relI2c1, .relI2c0])
  else
    let tr0 : List PEv :=
      [.queryI2c0, .acqI2c0, .queryI2c1, .acqI2c1, .querySpi, .acqSpi]
    let s1 : BusState := { s0 with devRoot := some () }
    if env.fileSupported = false then
      (errENOMEM, s1, tr0 ++ [.setRoot, .relI2c1, .relI2c0])
    else if env.fileInject = false then
      (errENOMEM, s1, tr0 ++ [.setRoot, .mkFile 0, .relI2c1, .relI2c0])
    else if env.fileEject = false then
      (errENOMEM, s1, tr0 ++ [.setRoot, .mkFile 0, .mkFile 1, .relI2c1, .relI2c0])
    else
      let r := addChildren s1 env.children
        (tr0 ++ [.setRoot, .mkFile 0, .mkFile 1, .mkFile 2])
      (0, r.1, r.2)

/-- The three upstream resources owned by a connector. -/
inductive Upstream where
  | i2c0 | i2c1 | spi
deriving DecidableEq

def acqRes : PEv → Option Upstream
  | .acqI2c0 => some .i2c0
  | .acqI2c1 => some .i2c1
  | .acqSpi => some .spi
  | _ => none

def relRes : PEv → Option Upstream
  | .relI2c0 => some .i2c0
  | .relI2c1 => some .i2c1
  | .relSpi => some .spi
  | _ => none

/-- The upstream resources acquired along a trace, in order. -/
def acqList (t : List PEv) : List Upstream := t.filterMap acqRes

/-- The upstream resources released along a trace, in order. -/
def relList (t : List PEv) : List Upstream := t.filterMap relRes

/-- Failure of `lscon_probe` during upstream-resource resolution (before the
Resource Bundle is complete). -/
def resolutionFails (env : ProbeEnv) : Prop :=
  env.i2c0Phandle = false ∨ env.i2c0Adapter = false ∨ env.i2c1Phandle = false ∨
    env.i2c1Adapter = false ∨ env.spiPhandle = false ∨ env.spiFind = false ∨
    env.spiGet = false

/-- Resolution of all three upstream links and creation of all three bus
files succeed. -/
def attachSetupOk (env : ProbeEnv) : Prop :=
  env.i2c0Phandle = true ∧ env.i2c0Adapter = true ∧ env.i2c1Phandle = true ∧
    env.i2c1Adapter = true ∧ env.spiPhandle = true ∧ env.spiFind = true ∧
    env.spiGet = true ∧ env.fileSupported = true ∧ env.fileInject = true ∧
    env.fileEject = true

instance (env : ProbeEnv) : Decidable (resolutionFails env) := by
  unfold resolutionFails; infer_instance

instance (env : ProbeEnv) : Decidable (attachSetupOk env) := by
  unfold attachSetupOk; infer_instance

/-- An attach environment where the whole Resource Bundle resolves but
creating the `supported` bus file fails. -/
def c2Env : ProbeEnv :=
  { i2c0Phandle := true, i2c0Adapter := true, i2c1Phandle := true,
    i2c1Adapter := true, spiPhandle := true, spiFind := true, spiGet := true,
    fileSupported := false, fileInject := true, fileEject := true,
    children := [] }

/-- An attach environment failing at the second resolution stage of i2c1. -/
def c2WitnessEnv : ProbeEnv :=
  { i2c0Phandle := true, i2c0Adapter := true, i2c1Phandle := true,
    i2c1Adapter := false, spiPhandle := true, spiFind := true, spiGet := true,
    fileSupported := true, fileInject := true, fileEject := true,
    children := [] }

/-- The number of occurrences of an event in a trace. -/
def countEv (e : PEv) (t : List PEv) : Nat := (t.filter (fun x => x == e)).length

/-- An attach environment where the spi link is declared but its controller
has not been registered yet. -/
def c4Env : ProbeEnv :=
  { i2c0Phandle := true, i2c0Adapter := true, i2c1Phandle := true,
    i2c1Adapter := true, spiPhandle := true, spiFind := false, spiGet := true,
    fileSupported := true, fileInject := true, fileEject := true,
    children := [] }

/-- An attach environment whose setup succeeds and whose topology declares
three children, the second of which fails its `device_add`. -/
def c8Env : ProbeEnv :=
  { i2c0Phandle := true, i2c0Adapter := true, i2c1Phandle := true,
    i2c1Adapter := true, spiPhandle := true, spiFind := true, spiGet := true,
    fileSupported := true, fileInject := true, fileEject := true,
    children := [⟨some "96boards,secure96", true, true⟩, ⟨none, true, false⟩,
                 ⟨none, true, true⟩] }

/-- Events emitted by `lscon_remove`: per-device teardown (`device_del`,
preceded by the bound driver's remove callback when the device is bound),
clearing `ls_bus_type.dev_root`, and the three upstream releases. -/
inductive REv where
  | drvRemove (id : Nat)
  | devDel (id : Nat)
  | clearRoot
  | relSpi | relI2c1 | relI2c0
deriving DecidableEq

/-- The events `lscon_del_device` emits for one device: the device model
invokes the bound driver's remove callback (if any) during `device_del`,
exactly once, then the device leaves the bus. -/
def del_dev_evs (d : LsDevice) : List REv :=
  (if d.bound.isSome then [REv.drvRemove d.id] else []) ++ [REv.devDel d.id]

/-- The events of the `bus_for_each_dev(... lscon_del_dev)` sweep, in bus
order. -/
def removeEvs : List LsDevice → List REv
  | [] => []
  | d :: rest => del_dev_evs d ++ removeEvs rest

/-- Model of `lscon_remove`: destroy every device on the bus, then clear
`ls_bus_type.dev_root`, then release the SPI reference, then i2c1, then
i2c0. -/
def lscon_remove (s : BusState) : List REv × BusState :=
  (removeEvs s.devices ++ [.clearRoot, .relSpi, .relI2c1, .relI2c0],
   { s with devices := [],
            ida := s.devices.foldl (fun a d => a.erase d.id) s.ida,
            devRoot := none })

/-- The detach trace the claim asserts, built from the spec's words: destroy
all children, then release SPI, then I2C-B, then I2C-A, and only then
invalidate the global active-connector reference. -/
def c7ClaimTrace (s : BusState) : List REv :=
  removeEvs s.devices ++ [.relSpi, .relI2c1, .relI2c0, .clearRoot]

/-- A connector with three live children — two topology-declared (one bound
to the secure96 driver, one unmatched) and one injected bound device. -/
def c7State : BusState :=
  { devices := [⟨0, "mezzanine0", some "96boards,secure96", some "secure96"⟩,
                ⟨1, "mezzanine1", some "acme,otherboard", none⟩,
                ⟨2, "secure96", none, some "secure96"⟩],
    ida := [0, 1, 2],
    drivers := [⟨"secure96", some "96boards,secure96"⟩],
    devRoot := some () }

/-- The number of occurrences of a teardown event in a trace. -/
def countREv (e : REv) (t : List REv) : Nat :=
  (t.filter (fun x => decide (x = e))).length

/-! ## The secure96 mezzanine driver (`96boards-secure96.c`)

`secure96_probe` acquires, in order: the four LED GPIOs (pins F, G, H, I),
the `leds-gpio` sub-device, the write-protect GPIO (pin B, non-fatal),
the EEPROM / crypto / hash I2C devices, the TPM reset GPIO (pin D), the TPM
interrupt GPIO (pin C), and the SPI TPM device.  The write-protect
descriptor is stored in the module-global `secure96_eeprom_pdata.wp_gpiod`
(modelled as the boolean `wp` threaded through probe and remove: it is
never cleared by the driver).  The error labels
`out_remove_tpm_irq` ... `out_unreg_leds` form the cleanup cascade of the
source and are modelled as trace suffixes. -/

/-- The resources `secure96_probe` acquires. -/
inductive S96Res where
  | ledGpio (i : Fin 4)
  | ledsDevice
  | wpGpio
  | eeprom
  | crypto
  | hash
  | tpmReset
  | tpmIrq
  | tpmSpi
deriving DecidableEq

/-- An acquisition or release of a secure96 resource. -/
inductive S96Ev where
  | acq (r : S96Res)
  | rel (r : S96Res)
deriving DecidableEq

/-- Which acquisitions succeed in a given probe run. -/
structure S96Env where
  ledOk : Fin 4 → Bool
  ledsDevOk : Bool
  wpOk : Bool
  eepromOk : Bool
  cryptoOk : Bool
  hashOk : Bool
  tpmResetOk : Bool
  tpmIrqOk : Bool
  tpmSpiOk : Bool

/-- The driver-private `struct secure96` handle fields that matter to the
claims: whether each i2c/spi device pointer is non-null at probe exit. -/
structure SecState where
  eeprom : Bool
  crypto : Bool
  hash : Bool
  tpm : Bool
deriving DecidableEq

/-- The outcome of a probe run: return value, event trace, the
`secure96_eeprom_pdata.wp_gpiod` module global afterwards, and the
drvdata (`some` exactly when probe returned success and set it). -/
structure S96Out where
  ret : Int
  tr : List S96Ev
  wp : Bool
  sec : Option SecState
deriving DecidableEq

/-- The `for (i = 0; i < ARRAY_SIZE(ledinfos); i++)` LED acquisition loop:
on the first failing LED GPIO the probe returns `-ENODEV` directly,
releasing nothing. -/
def s96LedLoop (env : S96Env) : List (Fin 4) → List S96Ev →
    Except (List S96Ev) (List S96Ev)
  | [], tr => .ok tr
  | i :: rest, tr =>
    if env.ledOk i then s96LedLoop env rest (tr ++ [.acq (.ledGpio i)])
    else .error tr

/-- Label `out_unreg_leds`: unregister the `leds-gpio` device, then release
the four LED GPIOs in forward array order (i = 0, 1, 2, 3). -/
def out_unreg_leds : List S96Ev :=
  [.rel .ledsDevice] ++ (List.finRange 4).map (fun i => .rel (.ledGpio i))

/-- Label `out_remove_eeprom`: unregister the EEPROM, release the
write-protect GPIO if the module-global pdata field holds one, then fall
through to `out_unreg_leds`. -/
def out_remove_eeprom (wp : Bool) : List S96Ev :=
  [.rel .eeprom] ++ (if wp then [.rel .wpGpio] else []) ++ out_unreg_leds

/-- Label `out_remove_crypto`. -/
def out_remove_crypto (wp : Bool) : List S96Ev :=
  [.rel .crypto] ++ out_remove_eeprom wp

/-- Label `out_remove_hash`. -/
def out_remove_hash (wp : Bool) : List S96Ev :=
  [.rel .hash] ++ out_remove_crypto wp

/-- Label `out_remove_tpm_reset`. -/
def out_remove_tpm_reset (wp : Bool) : List S96Ev :=
  [.rel .tpmReset] ++ out_remove_hash wp

/-- Label `out_remove_tpm_irq`. -/
def out_remove_tpm_irq (wp : Bool) : List S96Ev :=
  [.rel .tpmIrq] ++ out_remove_tpm_reset wp

/-- Model of `secure96_probe` on environment `env`, with `wp0` the value of
the module-global `secure96_eeprom_pdata.wp_gpiod` on entry.  Each step
follows the source: LED failures and a `leds-gpio` registration failure
return `-ENODEV` with no rollback; a write-protect GPIO failure only logs
and continues; an EEPROM failure jumps to `out_unreg_leds` (skipping the
write-protect release); the crypto and hash steps test `sec->eeprom` — not
the pointer just assigned — so their failures go undetected; TPM reset/irq
GPIO and SPI TPM failures jump into the cleanup cascade. -/
def secure96_probe (env : S96Env) (wp0 : Bool) : S96Out :=
  match s96LedLoop env (List.finRange 4) [] with
  | .error tr => ⟨errENODEV, tr, wp0, none⟩
  | .ok tr1 =>
    if env.ledsDevOk = false then ⟨errENODEV, tr1, wp0, none⟩ else
    let tr2 := tr1 ++ [.acq .ledsDevice]
    let wp1 := if env.wpOk then true else wp0
    let tr3 := if env.wpOk then tr2 ++ [.acq .wpGpio] else tr2
    if env.eepromOk = false then
      ⟨errENODEV, tr3 ++ out_unreg_leds, wp1, none⟩
    else
    let tr4 := tr3 ++ [.acq .eeprom]
    let tr5 := if env.cryptoOk then tr4 ++ [.acq .crypto] else tr4
    let tr6 := if env.hashOk then tr5 ++ [.acq .hash] else tr5
    if env.tpmResetOk = false then
      ⟨errENODEV, tr6 ++ out_remove_hash wp1, wp1, none⟩
    else
    let tr7 := tr6 ++ [.acq .tpmReset]
    if env.tpmIrqOk = false then
      ⟨errENODEV, tr7 ++ out_remove_tpm_reset wp1, wp1, none⟩
    else
    let tr8 := tr7 ++ [.acq .tpmIrq]
    if env.tpmSpiOk = false then
      ⟨errENODEV, tr8 ++ out_remove_tpm_irq wp1, wp1, none⟩
    else
      ⟨0, tr8 ++ [.acq .tpmSpi], wp1,
       some ⟨true, env.cryptoOk, env.hashOk, true⟩⟩

/-- Model of `secure96_remove` with `wp` the module-global pdata field:
release the SPI TPM, the TPM irq and reset GPIOs, the hash, crypto and
EEPROM devices, the write-protect GPIO if the pdata field holds one, the
`leds-gpio` device, and the four LED GPIOs in forward array order. -/
def secure96_remove (wp : Bool) : List S96Ev :=
  [.rel .tpmSpi, .rel .tpmIrq, .rel .tpmReset, .rel .hash, .rel .crypto,
   .rel .eeprom] ++
  (if wp then [.rel .wpGpio] else []) ++
  [.rel .ledsDevice] ++ (List.finRange 4).map (fun i => .rel (.ledGpio i))

/-- A probe environment where everything succeeds. -/
def s96AllOk : S96Env :=
  { ledOk := fun _ => true, ledsDevOk := true, wpOk := true, eepromOk := true,
    cryptoOk := true, hashOk := true, tpmResetOk := true, tpmIrqOk := true,
    tpmSpiOk := true }

/-- Everything succeeds except the crypto i2c device creation. -/
def s96CryptoFail : S96Env :=
  { s96AllOk with cryptoOk := false }

/-- Everything succeeds except the write-protect GPIO. -/
def s96WpFail : S96Env :=
  { s96AllOk with wpOk := false }

/-- Write-protect GPIO fails and the final SPI TPM step also fails. -/
def s96WpFailSpiFail : S96Env :=
  { s96AllOk with wpOk := false, tpmSpiOk := false }

/-- Only the final SPI TPM step fails. -/
def s96SpiFail : S96Env :=
  { s96AllOk with tpmSpiOk := false }

theorem leastFrom_skipped_mem (s : List Nat) :
    ∀ (fuel n k : Nat), n ≤ k → k < leastFrom s fuel n → k ∈ s := by
  intro fuel
  induction fuel with
  | zero =>
    intro n k hnk hk
    simp only [leastFrom] at hk
    omega
  | succ fuel ih =>
    intro n k hnk hk
    simp only [leastFrom] at hk
    by_cases hn : n ∈ s
    · rw [if_pos hn] at hk
      rcases Nat.eq_or_lt_of_le hnk with h | h
      · exact h ▸ hn
      · exact ih (n + 1) k h hk
    · rw [if_neg hn] at hk
      omega

theorem leastFrom_not_mem_or_exhausted (s : List Nat) :
    ∀ (fuel n : Nat), leastFrom s fuel n ∉ s ∨ leastFrom s fuel n = n + fuel := by
  intro fuel
  induction fuel with
  | zero => intro n; right; simp [leastFrom]
  | succ fuel ih =>
    intro n
    simp only [leastFrom]
    by_cases hn : n ∈ s
    · rw [if_pos hn]
      rcases ih (n + 1) with h | h
      · exact Or.inl h
      · right; omega
    · rw [if_neg hn]
      exact Or.inl hn

/-- Every id below the allocated one is already in the pool. -/
theorem idaAlloc_minimal (s : List Nat) : ∀ k < idaAlloc s, k ∈ s := by
  intro k hk
  exact leastFrom_skipped_mem s (s.length + 1) 0 k (Nat.zero_le k) hk

/-- The allocator always returns an id that is free in the pool. -/
theorem idaAlloc_not_mem (s : List Nat) : idaAlloc s ∉ s := by
  rcases leastFrom_not_mem_or_exhausted s (s.length + 1) 0 with h | h
  · exact h
  · exfalso
    have hall : ∀ k < s.length + 1, k ∈ s := by
      intro k hk
      apply idaAlloc_minimal
      unfold idaAlloc
      omega
    have hsub : List.range (s.length + 1) ⊆ s := by
      intro k hk
      exact hall k (List.mem_range.mp hk)
    have hperm := (List.nodup_range (s.length + 1)).subperm hsub
    have hlen := hperm.length_le
    simp only [List.length_range] at hlen
    omega

/-- The allocator returns exactly `x` when `x` is free and everything below
`x` is allocated. -/
theorem idaAlloc_eq_of_least (s : List Nat) (x : Nat)
    (hfree : x ∉ s) (hbelow : ∀ m < x, m ∈ s) : idaAlloc s = x := by
  rcases Nat.lt_trichotomy (idaAlloc s) x with h | h | h
  · exact absurd (hbelow _ h) (idaAlloc_not_mem s)
  · exact h
  · exact absurd (idaAlloc_minimal s x h) hfree

theorem busInv_start : busInv busStart := by decide

theorem busInv_add (s : BusState) (h : busInv s) (name : Option String)
    (np : Option String) (kOk addOk : Bool) :
    busInv (lscon_add_device s name np kOk addOk).2 := by
  obtain ⟨hdev, hida, hmem⟩ := h
  have hfresh : idaAlloc s.ida ∉ s.ida := idaAlloc_not_mem s.ida
  have hida' : (s.ida ++ [idaAlloc s.ida]).Nodup := by
    rw [List.nodup_append]
    refine ⟨hida, List.nodup_singleton _, ?_⟩
    intro a ha hb
    simp only [List.mem_singleton] at hb
    exact hfresh (hb ▸ ha)
  cases kOk with
  | false =>
    simp only [lscon_add_device, if_pos rfl]
    exact ⟨hdev, hida, hmem⟩
  | true =>
    cases addOk with
    | false =>
      simp only [lscon_add_device, if_neg (by decide : ¬(true = false)),
        if_neg (by decide : ¬(false = true))]
      refine ⟨hdev, hida', ?_⟩
      intro d hd
      exact List.mem_append_left _ (hmem d hd)
    | true =>
      simp only [lscon_add_device, if_neg (by decide : ¬(true = false)), if_pos rfl,
        if_true]
      refine ⟨?_, hida', ?_⟩
      · rw [List.map_append, List.nodup_append]
        refine ⟨hdev, List.nodup_singleton _, ?_⟩
        intro a ha hb
        simp only [List.map_cons, List.map_nil, List.mem_singleton] at hb
        subst hb
        simp only [List.mem_map] at ha
        obtain ⟨d, hd, hid⟩ := ha
        exact hfresh (hid ▸ hmem d hd)
      · intro d hd
        rcases List.mem_append.mp hd with hd | hd
        · exact List.mem_append_left _ (hmem d hd)
        · simp only [List.mem_singleton] at hd
          subst hd
          simp

theorem busInv_del (s : BusState) (h : busInv s) (d : LsDevice)
    (hd : d ∈ s.devices) : busInv (lscon_del_device s d) := by
  obtain ⟨hdev, hida, hmem⟩ := h
  have hdevnd : s.devices.Nodup := hdev.of_map
  refine ⟨?_, hida.erase d.id, ?_⟩
  · unfold lscon_del_device
    exact hdev.sublist ((s.devices.erase_sublist d).map _)
  · intro e he
    unfold lscon_del_device at he
    simp only at he
    have he' : e ∈ s.devices := List.mem_of_mem_erase he
    have hne : e ≠ d := by
      intro hed
      subst hed
      exact hdevnd.not_mem_erase he
    have hidne : e.id ≠ d.id := by
      intro hid
      exact hne (List.inj_on_of_nodup_map hdev he' hd hid)
    exact (hida.mem_erase_iff.mpr ⟨hidne, hmem e he'⟩)

theorem busInv_step (s : BusState) (op : BusOp) (h : busInv s) :
    busInv (busStep s op) := by
  cases op with
  | create name np kOk addOk => exact busInv_add s h name np kOk addOk
  | destroyAt i =>
    simp only [busStep]
    cases hd : s.devices[i]? with
    | none => exact h
    | some d => exact busInv_del s h d (List.getElem?_mem hd)

theorem busInv_runOps_aux (ops : List BusOp) :
    ∀ s, busInv s → busInv (runOps s ops) := by
  induction ops with
  | nil => intro s h; exact h
  | cons op rest ih =>
    intro s h
    simp only [runOps, List.foldl_cons]
    exact ih (busStep s op) (busInv_step s op h)

theorem busInv_runOps (ops : List BusOp) : busInv (runOps busStart ops) :=
  busInv_runOps_aux ops busStart busInv_start

/-- C3: for every sequence of create/destroy operations starting from the
empty bus, the ids of live devices are pairwise distinct; destroying a live
device returns its id to the `ls_device_ida` pool (the id is no longer
allocated), and since `ida_simple_get` hands out the least free id, the
freed id is allocated again by the very next create whenever no smaller id
is free — ids come from a managed free pool, not a plain counter. -/
theorem ls_device_ids_unique_and_reusable (ops : List BusOp) :
    ((runOps busStart ops).devices.map (fun d => d.id)).Nodup ∧
    ∀ d ∈ (runOps busStart ops).devices,
      d.id ∉ (lscon_del_device (runOps busStart ops) d).ida ∧
      ((∀ m < d.id, m ∈ (lscon_del_device (runOps busStart ops) d).ida) →
        idaAlloc (lscon_del_device (runOps busStart ops) d).ida = d.id) := by
  obtain ⟨hdev, hida, hmem⟩ := busInv_runOps ops
  refine ⟨hdev, ?_⟩
  intro d hd
  have hfree : d.id ∉ (lscon_del_device (runOps busStart ops) d).ida := by
    simp only [lscon_del_device]
    exact hida.not_mem_erase
  exact ⟨hfree, fun hbelow => idaAlloc_eq_of_least _ _ hfree hbelow⟩

theorem ls_device_ids_unique_and_reusable_witness :
    ((runOps busStart c3Ops).devices.map (fun d => d.id)).Nodup ∧
    idaAlloc (lscon_del_device (runOps busStart c3Ops) c3Dev).ida = 0 := by
  have h := ls_device_ids_unique_and_reusable c3Ops
  refine ⟨h.1, ?_⟩
  have h2 := h.2 c3Dev (by decide)
  exact h2.2 (fun m hm => absurd hm (Nat.not_lt_zero m))

/-- C5: with a connector attached, writing a name that (after trimming
surrounding whitespace) matches no registered driver to `inject`, or no
live device to `eject`, is a no-op success: the bus state — in particular
the device count — is unchanged and the full `count` is returned. -/
theorem ls_unknown_inject_eject_noop (s : BusState) (buf : String) (count : Nat)
    (kOk addOk : Bool) (hatt : s.devRoot = some ())
    (hdrv : ∀ drv ∈ s.drivers, drv.name ≠ strstrip buf)
    (hdev : ∀ d ∈ s.devices, d.devName ≠ strstrip buf) :
    ls_inject_store s buf count kOk addOk = .ok (count, s) ∧
    ls_eject_store s buf count = .ok (count, s) := by
  constructor
  · have hany : s.drivers.any (fun drv => strstrip buf == drv.name) = false := by
      rw [List.any_eq_false]
      intro drv hmem
      simpa using fun hEq => hdrv drv hmem hEq.symm
    simp only [ls_inject_store, hatt, hany, Bool.false_eq_true, if_false]
  · have hfind : s.devices.find? (fun d => d.devName == strstrip buf) = none := by
      rw [List.find?_eq_none]
      intro d hmem
      simpa using hdev d hmem
    simp only [ls_eject_store, hatt, hfind]

theorem ls_unknown_inject_eject_noop_witness :
    ls_inject_store c5State " foobar \n" 9 true true = .ok (9, c5State) ∧
    ls_eject_store c5State " foobar \n" 9 = .ok (9, c5State) :=
  ls_unknown_inject_eject_noop c5State " foobar \n" 9 true true (by decide)
    (by decide) (by decide)

/-- C9: every write to `inject` or `eject` first reads
`ls_bus_type.dev_root` and dereferences it through `dev_get_drvdata`
before looking at the written buffer; with no connector attached
(`dev_root` cleared) both operations fault on a null dereference whatever
the buffer contains. -/
theorem ls_store_null_deref_when_detached (s : BusState) (buf : String)
    (count : Nat) (kOk addOk : Bool) (h : s.devRoot = none) :
    ls_inject_store s buf count kOk addOk = .error () ∧
    ls_eject_store s buf count = .error () := by
  constructor
  · simp only [ls_inject_store, h]
  · simp only [ls_eject_store, h]

theorem ls_store_null_deref_when_detached_witness :
    ls_inject_store c9State "secure96" 8 true true = .error () ∧
    ls_eject_store c9State "mezzanine0" 10 = .error () :=
  ⟨(ls_store_null_deref_when_detached c9State "secure96" 8 true true rfl).1,
   (ls_store_null_deref_when_detached c9State "mezzanine0" 10 true true rfl).2⟩

/-- C6: device display naming in `lscon_add_device`.  With no explicit name
the device is named exactly `mezzanine<id>` where `<id>` is the id
`ida_simple_get` returned for this same call; an explicitly supplied name
(the injected-device path) wins over the derived name. -/
theorem ls_device_display_naming (s : BusState) (np : Option String) (n : String) :
    (lscon_add_device s none np true true).2.devices =
      s.devices ++
        [{ id := idaAlloc s.ida,
           devName := "mezzanine" ++ toString (idaAlloc s.ida),
           ofCompat := np,
           bound := matchDriver s.drivers
             ("mezzanine" ++ toString (idaAlloc s.ida)) np }] ∧
    (lscon_add_device s (some n) np true true).2.devices =
      s.devices ++
        [{ id := idaAlloc s.ida, devName := n, ofCompat := np,
           bound := matchDriver s.drivers n np }] :=
  ⟨rfl, rfl⟩

/-- C2 counterexample: `lscon_probe` is not all-or-nothing.  When the bundle
is fully resolved and a later step (`bus_create_file`) fails, the error
path (`out_put_i2c1`) releases only the two i2c adapters: attach returns an
error while the SPI reference is still held and `dev_root` is left set, so
a failed attach does not leave zero upstream resources nor unmodified
connector state. -/
theorem lscon_probe_not_all_or_nothing :
    (lscon_probe c2Env busStart).1 ≠ 0 ∧
    PEv.acqSpi ∈ (lscon_probe c2Env busStart).2.2 ∧
    PEv.relSpi ∉ (lscon_probe c2Env busStart).2.2 ∧
    (lscon_probe c2Env busStart).2.1.devRoot = some () := by
  decide

/-- C2 (amended): for every failure during upstream-resource resolution
(before the Resource Bundle is complete), `lscon_probe` returns the error
after releasing exactly the already-acquired upstream resources in strict
reverse acquisition order, and leaves the bus state untouched.  (A failure
after the bundle is complete — control-file creation — instead releases
only i2c1 and i2c0, leaking the SPI reference and leaving `dev_root` set,
as the counterexample shows.) -/
theorem lscon_probe_resolution_rollback (env : ProbeEnv) (s0 : BusState)
    (h : resolutionFails env) :
    (lscon_probe env s0).1 ≠ 0 ∧
    relList (lscon_probe env s0).2.2 = (acqList (lscon_probe env s0).2.2).reverse ∧
    (lscon_probe env s0).2.1 = s0 := by
  obtain ⟨p0, a0, p1, a1, sp, sf, sg, f1, f2, f3, ch⟩ := env
  cases p0
  · exact ⟨(by decide : errENODEV ≠ 0), rfl, rfl⟩
  cases a0
  · exact ⟨(by decide : errEPROBE_DEFER ≠ 0), rfl, rfl⟩
  cases p1
  · exact ⟨(by decide : errENODEV ≠ 0), rfl, rfl⟩
  cases a1
  · exact ⟨(by decide : errEPROBE_DEFER ≠ 0), rfl, rfl⟩
  cases sp
  · exact ⟨(by decide : errENODEV ≠ 0), rfl, rfl⟩
  cases sf
  · exact ⟨(by decide : errEPROBE_DEFER ≠ 0), rfl, rfl⟩
  cases sg
  · exact ⟨(by decide : errENODEV ≠ 0), rfl, rfl⟩
  simp only [resolutionFails] at h
  rcases h with h | h | h | h | h | h | h <;> exact absurd h (by decide)

theorem lscon_probe_resolution_rollback_witness :
    (lscon_probe c2WitnessEnv busStart).1 ≠ 0 ∧
    relList (lscon_probe c2WitnessEnv busStart).2.2 =
      (acqList (lscon_probe c2WitnessEnv busStart).2.2).reverse ∧
    (lscon_probe c2WitnessEnv busStart).2.1 = busStart :=
  lscon_probe_resolution_rollback c2WitnessEnv busStart (by decide)

theorem countEv_addChildren (e : PEv) (he : ∀ r : Int, (PEv.child r == e) = false) :
    ∀ (cs : List ChildSpec) (s : BusState) (tr : List PEv),
      countEv e (addChildren s cs tr).2 = countEv e tr := by
  intro cs
  induction cs with
  | nil => intro s tr; rfl
  | cons c rest ih =>
    intro s tr
    simp only [addChildren]
    rw [ih]
    simp [countEv, List.filter_append, he]

theorem lscon_probe_queries_once (env : ProbeEnv) (s0 : BusState) :
    countEv PEv.queryI2c0 (lscon_probe env s0).2.2 ≤ 1 ∧
    countEv PEv.queryI2c1 (lscon_probe env s0).2.2 ≤ 1 ∧
    countEv PEv.querySpi (lscon_probe env s0).2.2 ≤ 1 := by
  obtain ⟨p0, a0, p1, a1, sp, sf, sg, f1, f2, f3, ch⟩ := env
  cases p0
  · exact ⟨(by decide : countEv PEv.queryI2c0 [] ≤ 1),
      (by decide : countEv PEv.queryI2c1 [] ≤ 1),
      (by decide : countEv PEv.querySpi [] ≤ 1)⟩
  cases a0
  · exact ⟨(by decide : countEv PEv.queryI2c0 [PEv.queryI2c0] ≤ 1),
      (by decide : countEv PEv.queryI2c1 [PEv.queryI2c0] ≤ 1),
      (by decide : countEv PEv.querySpi [PEv.queryI2c0] ≤ 1)⟩
  cases p1
  · exact ⟨(by decide :
        countEv PEv.queryI2c0 [PEv.queryI2c0, PEv.acqI2c0, PEv.relI2c0] ≤ 1),
      (by decide :
        countEv PEv.queryI2c1 [PEv.queryI2c0, PEv.acqI2c0, PEv.relI2c0] ≤ 1),
      (by decide :
        countEv PEv.querySpi [PEv.queryI2c0, PEv.acqI2c0, PEv.relI2c0] ≤ 1)⟩
  cases a1
  · exact ⟨(by decide : countEv PEv.queryI2c0
        [PEv.queryI2c0, PEv.acqI2c0, PEv.queryI2c1, PEv.relI2c0] ≤ 1),
      (by decide : countEv PEv.queryI2c1
        [PEv.queryI2c0, PEv.acqI2c0, PEv.queryI2c1, PEv.relI2c0] ≤ 1),
      (by decide : countEv PEv.querySpi
        [PEv.queryI2c0, PEv.acqI2c0, PEv.queryI2c1, PEv.relI2c0] ≤ 1)⟩
  cases sp
  · exact ⟨(by decide : countEv PEv.queryI2c0
        [PEv.queryI2c0, PEv.acqI2c0, PEv.queryI2c1, PEv.acqI2c1,
         PEv.relI2c1, PEv.relI2c0] ≤ 1),
      (by decide : countEv PEv.queryI2c1
        [PEv.queryI2c0, PEv.acqI2c0, PEv.queryI2c1, PEv.acqI2c1,
         PEv.relI2c1, PEv.relI2c0] ≤ 1),
      (by decide : countEv PEv.querySpi
        [PEv.queryI2c0, PEv.acqI2c0, PEv.queryI2c1, PEv.acqI2c1,
         PEv.relI2c1, PEv.relI2c0] ≤ 1)⟩
  cases sf
  · exact ⟨(by decide : countEv PEv.queryI2c0
        [PEv.queryI2c0, PEv.acqI2c0, PEv.queryI2c1, PEv.acqI2c1,
         PEv.querySpi, PEv.relI2c1, PEv.relI2c0] ≤ 1),
      (by decide : countEv PEv.queryI2c1
        [PEv.queryI2c0, PEv.acqI2c0, PEv.queryI2c1, PEv.acqI2c1,
         PEv.querySpi, PEv.relI2c1, PEv.relI2c0] ≤ 1),
      (by decide : countEv PEv.querySpi
        [PEv.queryI2c0, PEv.acqI2c0, PEv.queryI2c1, PEv.acqI2c1,
         PEv.querySpi, PEv.relI2c1, PEv.relI2c0] ≤ 1)⟩
  cases sg
  · exact ⟨(by decide : countEv PEv.queryI2c0
        [PEv.queryI2c0, PEv.acqI2c0, PEv.queryI2c1, PEv.acqI2c1,
         PEv.querySpi, PEv.relI2c1, PEv.relI2c0] ≤ 1),
      (by decide : countEv PEv.queryI2c1
        [PEv.queryI2c0, PEv.acqI2c0, PEv.queryI2c1, PEv.acqI2c1,
         PEv.querySpi, PEv.relI2c1, PEv.relI2c0] ≤ 1),
      (by decide : countEv PEv.querySpi
        [PEv.queryI2c0, PEv.acqI2c0, PEv.queryI2c1, PEv.acqI2c1,
         PEv.querySpi, PEv.relI2c1, PEv.relI2c0] ≤ 1)⟩
  cases f1
  · exact ⟨(by decide : countEv PEv.queryI2c0
        ([PEv.queryI2c0, PEv.acqI2c0, PEv.queryI2c1, PEv.acqI2c1,
          PEv.querySpi, PEv.acqSpi] ++ [PEv.setRoot, PEv.relI2c1, PEv.relI2c0]) ≤ 1),
      (by decide : countEv PEv.queryI2c1
        ([PEv.queryI2c0, PEv.acqI2c0, PEv.queryI2c1, PEv.acqI2c1,
          PEv.querySpi, PEv.acqSpi] ++ [PEv.setRoot, PEv.relI2c1, PEv.relI2c0]) ≤ 1),
      (by decide : countEv PEv.querySpi
        ([PEv.queryI2c0, PEv.acqI2c0, PEv.queryI2c1, PEv.acqI2c1,
          PEv.querySpi, PEv.acqSpi] ++ [PEv.setRoot, PEv.relI2c1, PEv.relI2c0]) ≤ 1)⟩
  cases f2
  · exact ⟨(by decide : countEv PEv.queryI2c0
        ([PEv.queryI2c0, PEv.acqI2c0, PEv.queryI2c1, PEv.acqI2c1,
          PEv.querySpi, PEv.acqSpi] ++
         [PEv.setRoot, PEv.mkFile 0, PEv.relI2c1, PEv.relI2c0]) ≤ 1),
      (by decide : countEv PEv.queryI2c1
        ([PEv.queryI2c0, PEv.acqI2c0, PEv.queryI2c1, PEv.acqI2c1,
          PEv.querySpi, PEv.acqSpi] ++
         [PEv.setRoot, PEv.mkFile 0, PEv.relI2c1, PEv.relI2c0]) ≤ 1),
      (by decide : countEv PEv.querySpi
        ([PEv.queryI2c0, PEv.acqI2c0, PEv.queryI2c1, PEv.acqI2c1,
          PEv.querySpi, PEv.acqSpi] ++
         [PEv.setRoot, PEv.mkFile 0, PEv.relI2c1, PEv.relI2c0]) ≤ 1)⟩
  cases f3
  · exact ⟨(by decide : countEv PEv.queryI2c0
        ([PEv.queryI2c0, PEv.acqI2c0, PEv.queryI2c1, PEv.acqI2c1,
          PEv.querySpi, PEv.acqSpi] ++
         [PEv.setRoot, PEv.mkFile 0, PEv.mkFile 1, PEv.relI2c1, PEv.relI2c0]) ≤ 1),
      (by decide : countEv PEv.queryI2c1
        ([PEv.queryI2c0, PEv.acqI2c0, PEv.queryI2c1, PEv.acqI2c1,
          PEv.querySpi, PEv.acqSpi] ++
         [PEv.setRoot, PEv.mkFile 0, PEv.mkFile 1, PEv.relI2c1, PEv.relI2c0]) ≤ 1),
      (by decide : countEv PEv.querySpi
        ([PEv.queryI2c0, PEv.acqI2c0, PEv.queryI2c1, PEv.acqI2c1,
          PEv.querySpi, PEv.acqSpi] ++
         [PEv.setRoot, PEv.mkFile 0, PEv.mkFile 1, PEv.relI2c1, PEv.relI2c0]) ≤ 1)⟩
  refine ⟨?_, ?_, ?_⟩
  · exact (countEv_addChildren PEv.queryI2c0 (fun r => rfl) ch _ _).trans_le
      (by decide : countEv PEv.queryI2c0
        ([PEv.queryI2c0, PEv.acqI2c0, PEv.queryI2c1, PEv.acqI2c1,
          PEv.querySpi, PEv.acqSpi] ++
         [PEv.setRoot, PEv.mkFile 0, PEv.mkFile 1, PEv.mkFile 2]) ≤ 1)
  · exact (countEv_addChildren PEv.queryI2c1 (fun r => rfl) ch _ _).trans_le
      (by decide : countEv PEv.queryI2c1
        ([PEv.queryI2c0, PEv.acqI2c0, PEv.queryI2c1, PEv.acqI2c1,
          PEv.querySpi, PEv.acqSpi] ++
         [PEv.setRoot, PEv.mkFile 0, PEv.mkFile 1, PEv.mkFile 2]) ≤ 1)
  · exact (countEv_addChildren PEv.querySpi (fun r => rfl) ch _ _).trans_le
      (by decide : countEv PEv.querySpi
        ([PEv.queryI2c0, PEv.acqI2c0, PEv.queryI2c1, PEv.acqI2c1,
          PEv.querySpi, PEv.acqSpi] ++
         [PEv.setRoot, PEv.mkFile 0, PEv.mkFile 1, PEv.mkFile 2]) ≤ 1)

/-- C4: each upstream link resolution distinguishes a link that is not
declared in the topology (missing phandle, permanent `-ENODEV`) from a
declared link whose provider is not yet available (lookup failure, the
distinct retry-later code `-EPROBE_DEFER`, returned directly to the
caller); and the probe never retries internally — each provider is queried
at most once in any run. -/
theorem lscon_probe_link_outcomes (env : ProbeEnv) (s0 : BusState) :
    errEPROBE_DEFER ≠ errENODEV ∧
    (env.i2c0Phandle = false → (lscon_probe env s0).1 = errENODEV) ∧
    (env.i2c0Phandle = true → env.i2c0Adapter = false →
      (lscon_probe env s0).1 = errEPROBE_DEFER) ∧
    (env.i2c0Phandle = true → env.i2c0Adapter = true → env.i2c1Phandle = false →
      (lscon_probe env s0).1 = errENODEV) ∧
    (env.i2c0Phandle = true → env.i2c0Adapter = true → env.i2c1Phandle = true →
      env.i2c1Adapter = false → (lscon_probe env s0).1 = errEPROBE_DEFER) ∧
    (env.i2c0Phandle = true → env.i2c0Adapter = true → env.i2c1Phandle = true →
      env.i2c1Adapter = true → env.spiPhandle = false →
      (lscon_probe env s0).1 = errENODEV) ∧
    (env.i2c0Phandle = true → env.i2c0Adapter = true → env.i2c1Phandle = true →
      env.i2c1Adapter = true → env.spiPhandle = true → env.spiFind = false →
      (lscon_probe env s0).1 = errEPROBE_DEFER) ∧
    countEv PEv.queryI2c0 (lscon_probe env s0).2.2 ≤ 1 ∧
    countEv PEv.queryI2c1 (lscon_probe env s0).2.2 ≤ 1 ∧
    countEv PEv.querySpi (lscon_probe env s0).2.2 ≤ 1 := by
  obtain ⟨hq0, hq1, hqs⟩ := lscon_probe_queries_once env s0
  refine ⟨by decide, ?_, ?_, ?_, ?_, ?_, ?_, hq0, hq1, hqs⟩
  · intro h0
    unfold lscon_probe
    rw [if_pos h0]
  · intro h0 h1
    unfold lscon_probe
    rw [if_neg (by simp [h0]), if_pos h1]
  · intro h0 h1 h2
    unfold lscon_probe
    rw [if_neg (by simp [h0]), if_neg (by simp [h1]), if_pos h2]
  · intro h0 h1 h2 h3
    unfold lscon_probe
    rw [if_neg (by simp [h0]), if_neg (by simp [h1]), if_neg (by simp [h2]),
      if_pos h3]
  · intro h0 h1 h2 h3 h4
    unfold lscon_probe
    rw [if_neg (by simp [h0]), if_neg (by simp [h1]), if_neg (by simp [h2]),
      if_neg (by simp [h3]), if_pos h4]
  · intro h0 h1 h2 h3 h4 h5
    unfold lscon_probe
    rw [if_neg (by simp [h0]), if_neg (by simp [h1]), if_neg (by simp [h2]),
      if_neg (by simp [h3]), if_neg (by simp [h4]), if_pos h5]

theorem lscon_probe_link_outcomes_witness :
    (lscon_probe c4Env busStart).1 = errEPROBE_DEFER ∧
    countEv PEv.querySpi (lscon_probe c4Env busStart).2.2 ≤ 1 := by
  have h := lscon_probe_link_outcomes c4Env busStart
  exact ⟨h.2.2.2.2.2.2.1 rfl rfl rfl rfl rfl rfl, h.2.2.2.2.2.2.2.2.2⟩

theorem addChildren_devices_length :
    ∀ (cs : List ChildSpec) (s : BusState) (tr : List PEv),
      (addChildren s cs tr).1.devices.length =
        s.devices.length + (cs.filter (fun c => c.kOk && c.addOk)).length := by
  intro cs
  induction cs with
  | nil => intro s tr; simp [addChildren]
  | cons c rest ih =>
    intro s tr
    simp only [addChildren]
    rw [ih]
    cases hk : c.kOk <;> cases ha : c.addOk <;>
      simp [lscon_add_device, hk, ha, List.filter_cons]
    omega

/-- C8 counterexample: per-child creation errors are not reported to the
caller.  With a failing middle child, `lscon_probe` still returns plain
success `0` — the only value the caller receives — although the trace
records the child's error and only two devices were created; the error is
dropped (`lscon_add_device`'s return value is ignored by the
`for_each_available_child_of_node` loop), not collected or reported. -/
theorem lscon_probe_child_error_unreported :
    (lscon_probe c8Env busStart).1 = 0 ∧
    PEv.child errENODEV ∈ (lscon_probe c8Env busStart).2.2 ∧
    (lscon_probe c8Env busStart).2.1.devices.length = 2 := by
  decide

/-- C8 (amended): once the bundle is resolved and the three control files
created, `lscon_probe` attempts to create a device for every available
child node; an individual child's creation error does not fail the attach
— the remaining children are still created and the probe returns success —
but the per-child error is discarded (logged at most), not collected or
reported to the caller. -/
theorem lscon_probe_children_best_effort (env : ProbeEnv) (s0 : BusState)
    (h : attachSetupOk env) :
    (lscon_probe env s0).1 = 0 ∧
    (lscon_probe env s0).2.1.devices.length =
      s0.devices.length +
        (env.children.filter (fun c => c.kOk && c.addOk)).length := by
  obtain ⟨h0, h1, h2, h3, h4, h5, h6, h7, h8, h9⟩ := h
  unfold lscon_probe
  rw [if_neg (by simp [h0]), if_neg (by simp [h1]), if_neg (by simp [h2]),
    if_neg (by simp [h3]), if_neg (by simp [h4]), if_neg (by simp [h5]),
    if_neg (by simp [h6]), if_neg (by simp [h7]), if_neg (by simp [h8]),
    if_neg (by simp [h9])]
  exact ⟨rfl, addChildren_devices_length env.children _ _⟩

theorem lscon_probe_children_best_effort_witness :
    (lscon_probe c8Env busStart).1 = 0 ∧
    (lscon_probe c8Env busStart).2.1.devices.length =
      busStart.devices.length +
        (c8Env.children.filter (fun c => c.kOk && c.addOk)).length :=
  lscon_probe_children_best_effort c8Env busStart (by decide)

/-- C7 counterexample: `lscon_remove` invalidates the global
active-connector reference (`ls_bus_type.dev_root = NULL`) *before*
releasing the Resource Bundle, not after as the claim states: the actual
trace differs from the claimed one, and the invalidation event precedes
the SPI release. -/
theorem lscon_remove_root_cleared_before_releases :
    (lscon_remove c7State).1 ≠ c7ClaimTrace c7State ∧
    (lscon_remove c7State).1.indexOf REv.clearRoot <
      (lscon_remove c7State).1.indexOf REv.relSpi := by
  decide

theorem countREv_append (e : REv) (a b : List REv) :
    countREv e (a ++ b) = countREv e a + countREv e b := by
  simp [countREv, List.filter_append]

theorem countREv_del_dev_evs_self (d : LsDevice) :
    countREv (REv.devDel d.id) (del_dev_evs d) = 1 ∧
    (d.bound.isSome = true →
      countREv (REv.drvRemove d.id) (del_dev_evs d) = 1) := by
  cases hb : d.bound <;> simp [del_dev_evs, hb, countREv]

theorem countREv_del_dev_evs_other (d : LsDevice) (i : Nat) (h : d.id ≠ i) :
    countREv (REv.devDel i) (del_dev_evs d) = 0 ∧
    countREv (REv.drvRemove i) (del_dev_evs d) = 0 := by
  cases hb : d.bound <;> simp [del_dev_evs, hb, countREv, h]

theorem countREv_removeEvs_zero (l : List LsDevice) (i : Nat)
    (h : ∀ d ∈ l, d.id ≠ i) :
    countREv (REv.devDel i) (removeEvs l) = 0 ∧
    countREv (REv.drvRemove i) (removeEvs l) = 0 := by
  induction l with
  | nil => exact ⟨rfl, rfl⟩
  | cons x rest ih =>
    have hx := h x (List.mem_cons_self x rest)
    have hr := ih (fun d hd => h d (List.mem_cons_of_mem x hd))
    simp only [removeEvs]
    constructor
    · rw [countREv_append, (countREv_del_dev_evs_other x i hx).1, hr.1]
    · rw [countREv_append, (countREv_del_dev_evs_other x i hx).2, hr.2]

theorem countREv_removeEvs (l : List LsDevice)
    (hnd : (l.map (fun d => d.id)).Nodup) :
    ∀ d ∈ l, countREv (REv.devDel d.id) (removeEvs l) = 1 ∧
      (d.bound.isSome = true →
        countREv (REv.drvRemove d.id) (removeEvs l) = 1) := by
  induction l with
  | nil => intro d hd; cases hd
  | cons x rest ih =>
    intro d hd
    have hnd' : (rest.map (fun d => d.id)).Nodup := by
      simp only [List.map_cons, List.nodup_cons] at hnd
      exact hnd.2
    have hxid : x.id ∉ rest.map (fun d => d.id) := by
      simp only [List.map_cons, List.nodup_cons] at hnd
      exact hnd.1
    rcases List.mem_cons.mp hd with hdx | hdr
    · subst hdx
      have hzero := countREv_removeEvs_zero rest d.id
        (fun y hy hyid => hxid (hyid ▸ List.mem_map_of_mem (fun d => d.id) hy))
      simp only [removeEvs]
      constructor
      · rw [countREv_append, (countREv_del_dev_evs_self d).1, hzero.1]
      · intro hb
        rw [countREv_append, (countREv_del_dev_evs_self d).2 hb, hzero.2]
    · have hxd : x.id ≠ d.id := fun hEq =>
        hxid (hEq ▸ List.mem_map_of_mem (fun d => d.id) hdr)
      have hr := ih hnd' d hdr
      simp only [removeEvs]
      constructor
      · rw [countREv_append, (countREv_del_dev_evs_other x d.id hxd).1, hr.1]
      · intro hb
        rw [countREv_append, (countREv_del_dev_evs_other x d.id hxd).2, hr.2 hb]

/-- C7 (amended): `lscon_remove` first destroys every remaining child device
(each bound driver's remove callback invoked exactly once, each device
deleted exactly once), *then* invalidates the global active-connector
reference, and then releases the SPI reference, then I2C-B, then I2C-A (the
bundle releases are in reverse acquisition order, but the invalidation
happens before them, not after). -/
theorem lscon_remove_order (s : BusState)
    (hnd : (s.devices.map (fun d => d.id)).Nodup) :
    (lscon_remove s).1 =
      removeEvs s.devices ++
        [REv.clearRoot, REv.relSpi, REv.relI2c1, REv.relI2c0] ∧
    (∀ d ∈ s.devices,
      countREv (REv.devDel d.id) (lscon_remove s).1 = 1 ∧
      (d.bound.isSome = true →
        countREv (REv.drvRemove d.id) (lscon_remove s).1 = 1)) ∧
    (lscon_remove s).2.devices = [] ∧
    (lscon_remove s).2.devRoot = none := by
  refine ⟨rfl, ?_, rfl, rfl⟩
  intro d hd
  have h1 := countREv_removeEvs s.devices hnd d hd
  constructor
  · show countREv (REv.devDel d.id)
      (removeEvs s.devices ++
        [REv.clearRoot, REv.relSpi, REv.relI2c1, REv.relI2c0]) = 1
    rw [countREv_append, h1.1]
    simp [countREv]
  · intro hb
    show countREv (REv.drvRemove d.id)
      (removeEvs s.devices ++
        [REv.clearRoot, REv.relSpi, REv.relI2c1, REv.relI2c0]) = 1
    rw [countREv_append, h1.2 hb]
    simp [countREv]

theorem lscon_remove_order_witness :
    (lscon_remove c7State).1 =
      removeEvs c7State.devices ++
        [REv.clearRoot, REv.relSpi, REv.relI2c1, REv.relI2c0] ∧
    countREv (REv.devDel 2) (lscon_remove c7State).1 = 1 ∧
    countREv (REv.drvRemove 2) (lscon_remove c7State).1 = 1 ∧
    (lscon_remove c7State).2.devRoot = none := by
  have h := lscon_remove_order c7State (by decide)
  have h2 := h.2.1 ⟨2, "secure96", none, some "secure96"⟩ (by decide)
  exact ⟨h.1, h2.1, h2.2 rfl, h.2.2.2⟩

/-- C1: the probe's rollback contract is broken by a slip in the source.
When the crypto I2C device creation fails (everything before it
succeeding, on a fresh module), `secure96_probe` tests `sec->eeprom`
instead of the just-assigned `sec->crypto`, so the failure goes
undetected: the probe returns success `0` with a null `crypto` handle and
releases nothing — the claimed release of steps `1..k-1` in reverse order
before returning the error never happens. -/
theorem secure96_probe_crypto_failure_undetected :
    (secure96_probe s96CryptoFail false).ret = 0 ∧
    (secure96_probe s96CryptoFail false).sec = some ⟨true, false, true, true⟩ ∧
    (secure96_probe s96CryptoFail false).tr =
      [.acq (.ledGpio 0), .acq (.ledGpio 1), .acq (.ledGpio 2),
       .acq (.ledGpio 3), .acq .ledsDevice, .acq .wpGpio, .acq .eeprom,
       .acq .hash, .acq .tpmReset, .acq .tpmIrq, .acq .tpmSpi] := by
  decide

/-- C10: a write-protect GPIO (pin B) failure is non-fatal: the probe
continues, creates the EEPROM without a write-protect line and returns
success with the module-global pdata field still unset; the write-protect
descriptor is released — in the rollback cascade and in remove — exactly
when the pdata field holds one, i.e. only when its acquisition succeeded. -/
theorem secure96_wp_failure_nonfatal :
    (secure96_probe s96WpFail false).ret = 0 ∧
    S96Ev.acq S96Res.eeprom ∈ (secure96_probe s96WpFail false).tr ∧
    S96Ev.acq S96Res.wpGpio ∉ (secure96_probe s96WpFail false).tr ∧
    (secure96_probe s96WpFail false).wp = false ∧
    (secure96_probe s96AllOk false).wp = true ∧
    S96Ev.rel S96Res.wpGpio ∉ (secure96_probe s96WpFailSpiFail false).tr ∧
    S96Ev.rel S96Res.wpGpio ∈ (secure96_probe s96SpiFail false).tr ∧
    S96Ev.rel S96Res.wpGpio ∉ secure96_remove false ∧
    S96Ev.rel S96Res.wpGpio ∈ secure96_remove true := by
  decide
